import Mathlib

/-!
Verification of the training-data generator
(`docs/development/text-classifier/scripts/generate_training_data.py`).

The script is embedded shallowly: the process-wide seeded PRNG
(`random.seed(42)` and the Mersenne-Twister stream behind
`random.random` / `random.choice` / `random.shuffle`) is modelled by an
explicit stream of raw draws (`Rand`), threaded through every operation in
the exact order the Python code consumes randomness.  Each primitive
(`random.random`, `random.choice`, `random.shuffle`, `str.replace`,
`str.format`) is embedded as an executable Lean function.  All claims that
concern counts, labels, ordering and determinism are proved for every
stream, hence in particular for the stream produced by the fixed seed.
-/

namespace TCGen

/-- Explicit model of the process-wide seeded PRNG: `stream` is the
sequence of raw nonnegative draws the seeded generator would emit, `pos`
the number of draws consumed so far.  A fixed seed determines a fixed
stream. -/
structure Rand where
  stream : Nat → Nat
  pos : Nat

/-- Consume one raw draw. -/
def next (r : Rand) : Nat × Rand :=
  (r.stream r.pos, ⟨r.stream, r.pos + 1⟩)

/-- Model of `random.random()`: a rational in `[0,1)` with 53 bits of
resolution, as CPython produces. -/
def randFloat (r : Rand) : Rat × Rand :=
  let (v, r1) := next r
  (((v % 2 ^ 53 : Nat) : Rat) / 2 ^ 53, r1)

/-- Model of `random.choice(seq)`: one draw reduced modulo the length.
All call sites in the script pass non-empty lists. -/
def choice {α : Type} [Inhabited α] (l : List α) (r : Rand) : α × Rand :=
  let (v, r1) := next r
  (l.getD (v % l.length) default, r1)

/-- Does the character list `s` start with `pat`? (helper for the
`str.replace` embedding). -/
def startsWithPat : List Char → List Char → Bool
  | [], _ => true
  | _ :: _, [] => false
  | p :: ps, c :: cs => p == c && startsWithPat ps cs

/-- Does `pat` occur as a contiguous substring of `s`? -/
def containsSub : List Char → List Char → Bool
  | [], pat => pat.isEmpty
  | c :: rest, pat => startsWithPat pat (c :: rest) || containsSub rest pat

/-- Model of Python `str.replace`: replace every occurrence of `pat`
left to right, non-overlapping.  `fuel` bounds the scan (the callers pass
the length of `s`, which suffices since each step consumes at least one
character). -/
def pyReplaceAux (pat rep : List Char) : Nat → List Char → List Char
  | _, [] => []
  | 0, s => s
  | fuel + 1, c :: rest =>
    if !pat.isEmpty && startsWithPat pat (c :: rest) then
      rep ++ pyReplaceAux pat rep fuel ((c :: rest).drop pat.length)
    else
      c :: pyReplaceAux pat rep fuel rest

/-- Model of Python `text.replace(pat, rep)` on strings. -/
def pyReplace (s pat rep : String) : String :=
  String.mk (pyReplaceAux pat.data rep.data s.data.length s.data)

/-- Substring test on strings (Python `pat in s`). -/
def strContains (s pat : String) : Bool :=
  containsSub s.data pat.data

/-- The fixed table `typo_patterns` of lines 24-42 of the script. -/
def typo_patterns : List (String × String) :=
  [("the", "teh"), ("and", "adn"), ("for", "fro"), ("you", "yuo"),
   ("that", "taht"), ("this", "tihs"), ("from", "form"), ("have", "ahve"),
   ("with", "wiht"), ("tomorrow", "tommorow"), ("definitely", "definately"),
   ("receive", "recieve"), ("good", "goood"), ("really", "reallly")]

/-- Embedding of `add_typos(text, typo_rate)` (lines 19-45): one uniform
draw; if it exceeds `typo_rate` the text is returned unchanged, otherwise
one typo rule is chosen and all occurrences of its match substring are
replaced. -/
def add_typos (text : String) (typo_rate : Rat) (r : Rand) : String × Rand :=
  let (draw, r1) := randFloat r
  if typo_rate < draw then (text, r1)
  else
    let (pattern, r2) := choice typo_patterns r1
    (pyReplace text pattern.1 pattern.2, r2)

/-- Association-list lookup used to model keyword-argument lookup in
`str.format` (Python raises `KeyError` when absent — modelled as `none`). -/
def alookup {α : Type} (k : String) : List (String × α) → Option α
  | [] => none
  | (k2, v) :: rest => if k = k2 then some v else alookup k rest

/-- Core of the `str.format` embedding: scan the template; `\x7b name \x7d`
is replaced by the looked-up value, a missing key or an unclosed brace
yields `none` (Python raises).  `fuel` bounds the scan; each step consumes
at least one character, so the callers pass the template length. -/
def formatAux (env : List (String × String)) : Nat → List Char → Option (List Char)
  | _, [] => some []
  | 0, _ :: _ => none
  | fuel + 1, c :: rest =>
    if c = '\x7b' then
      match rest.dropWhile (fun d => d ≠ '\x7d') with
      | [] => none
      | _ :: rest2 =>
        match alookup (String.mk (rest.takeWhile (fun d => d ≠ '\x7d'))) env with
        | none => none
        | some v =>
          match formatAux env fuel rest2 with
          | none => none
          | some out => some (v.data ++ out)
    else
      match formatAux env fuel rest with
      | some out => some (c :: out)
      | none => none

/-- Embedding of `template.format(key1=v1, ...)` with the keyword
environment given as an association list. -/
def pyFormat (template : String) (env : List (String × String)) : Option String :=
  (formatAux env template.data.length template.data).map String.mk

/-- Static check mirroring `formatAux` shape for shape only: `true` iff
every slot of the template closes and names a key of `keys`.  Used to show
`pyFormat` succeeds on the script's templates. -/
def slotsOkAux (keys : List String) : Nat → List Char → Bool
  | _, [] => true
  | 0, _ :: _ => false
  | fuel + 1, c :: rest =>
    if c = '\x7b' then
      match rest.dropWhile (fun d => d ≠ '\x7d') with
      | [] => false
      | _ :: rest2 =>
        keys.contains (String.mk (rest.takeWhile (fun d => d ≠ '\x7d'))) &&
          slotsOkAux keys fuel rest2
    else slotsOkAux keys fuel rest

/-- All slots of `t` are declared among `keys`. -/
def slotsOk (keys : List String) (t : String) : Bool :=
  slotsOkAux keys t.data.length t.data

/-- A labeled training example (`{"text": ..., "label": ...}`). -/
structure Example where
  text : String
  label : String
deriving DecidableEq

/-- The six valid category label strings. -/
def validLabels : List String :=
  ["BUDGET", "SHOPPING", "REMINDER", "CALENDAR", "NOTE", "QUOTE"]

/-- Generic per-example loop: `for _ in range(count): examples.append(one())`,
with the per-example step allowed to fail (a failed `str.format`). -/
def genListAux (one : Rand → Option (Example × Rand)) : Nat → Rand → Option (List Example × Rand)
  | 0, r => some ([], r)
  | n + 1, r => do
    let (e, r1) ← one r
    let (es, r2) ← genListAux one n r1
    pure (e :: es, r2)

/-! ### BUDGET generator (lines 48-130) -/

def budget_amounts : List String :=
  ["5", "12", "23.50", "45", "67.99", "100", "250", "500", "1250", "2400"]

def budget_currencies : List String :=
  ["dollars", "bucks", "euro", "euros", "eur", "usd", "lev", "leva", "$", "€"]

def expense_templates : List String :=
  ["spent {amount} {currency} on {item}",
   "paid {amount} {currency} for {item}",
   "{amount} {currency} at {place}",
   "bought {item} for {amount}",
   "I think it was like {amount} maybe {amount2} {currency}",
   "umm spent {amount} on {item}",
   "{item} cost me {amount} {currency}",
   "paid about {amount} for {item} yesterday",
   "{amount} {currency} {item}",
   "spent somewhere around {amount} {currency}",
   "I paid {amount} {currency} {item}",
   "{item} {amount} {currency} today"]

def income_templates : List String :=
  ["got paid {amount} {currency}",
   "earned {amount} from {source}",
   "income: {amount} {currency}",
   "made {amount} {currency} selling {item}",
   "received {amount} {currency} refund",
   "salary {amount} {currency} deposited",
   "my paycheck was {amount}",
   "bonus payment {amount} {currency}",
   "{amount} {currency} cashback",
   "sold {item} for {amount}"]

def budget_items : List String :=
  ["coffee", "groceries", "lunch", "dinner", "gas", "parking", "uber",
   "rent", "electricity bill", "internet", "gym membership", "haircut",
   "clothes", "shoes", "phone charger", "snacks", "taxi", "movie tickets",
   "medicine", "vitamins", "books", "coffee beans", "bread", "milk"]

def budget_places : List String :=
  ["Starbucks", "Whole Foods", "Target", "DM", "Lidl", "the store",
   "the restaurant", "the gas station", "Amazon", "the pharmacy",
   "the market", "the shop", "online", "the mall"]

def budget_sources : List String :=
  ["freelance work", "side job", "the client", "tutoring",
   "selling stuff online", "weekend gig", "my side hustle",
   "consulting work", "the project"]

/-- One expense example (lines 106-116): keyword arguments are drawn left
to right exactly as Python evaluates `template.format(...)`. -/
def genBudgetExpenseOne (r : Rand) : Option (Example × Rand) :=
  let (template, r1) := choice expense_templates r
  let (amount, r2) := choice budget_amounts r1
  let (amount2, r3) := choice budget_amounts r2
  let (currency, r4) := choice budget_currencies r3
  let (item, r5) := choice budget_items r4
  let (place, r6) := choice budget_places r5
  match pyFormat template [("amount", amount), ("amount2", amount2),
      ("currency", currency), ("item", item), ("place", place)] with
  | none => none
  | some s =>
    let (s2, r7) := add_typos s 0.15 r6
    some (⟨s2, "BUDGET"⟩, r7)

/-- One income example (lines 119-128). -/
def genBudgetIncomeOne (r : Rand) : Option (Example × Rand) :=
  let (template, r1) := choice income_templates r
  let (amount, r2) := choice budget_amounts r1
  let (currency, r3) := choice budget_currencies r2
  let (item, r4) := choice budget_items r3
  let (source, r5) := choice budget_sources r4
  match pyFormat template [("amount", amount), ("currency", currency),
      ("item", item), ("source", source)] with
  | none => none
  | some s =>
    let (s2, r6) := add_typos s 0.15 r5
    some (⟨s2, "BUDGET"⟩, r6)

/-- Linear search for the smallest shift `s` with `p / 2^s < 2^53`; the
fuel `p` always suffices since `p / 2^p = 0`. -/
def findShift : Nat → Nat → Nat → Nat
  | 0, _, s => s
  | fuel + 1, p, s => if p / 2 ^ s < 2 ^ 53 then s else findShift fuel p (s + 1)

/-- Round a nonnegative integer to 53 significant bits with ties to even:
the significand rounding of IEEE-754 binary64 arithmetic.  The result is
the integer value of the double nearest `p`. -/
def roundSig53 (p : Nat) : Nat :=
  if p < 2 ^ 53 then p
  else
    let shift := findShift p p 0
    let q := p / 2 ^ shift
    let r := p % 2 ^ shift
    let half := 2 ^ (shift - 1)
    let q2 := if half < r then q + 1
              else if r < half then q
              else if q % 2 = 1 then q + 1 else q
    q2 * 2 ^ shift

/-- Significand of the IEEE-754 binary64 double nearest 0.7: the double's
exact value is `3152519739159347 / 2^52` (slightly below 0.7). -/
def double07num : Nat := 3152519739159347

/-- Significand of the IEEE-754 binary64 double nearest 0.3: the double's
exact value is `5404319552844595 / 2^54` (slightly below 0.3). -/
def double03num : Nat := 5404319552844595

/-- `int(count * 0.7)` with IEEE-754 binary64 semantics, as CPython
computes it: `count` is converted to the nearest double, multiplied by
the double nearest 0.7 with one round-to-nearest-even of the product's
significand, and the product truncated toward zero.  E.g. it yields 3 at
count 5, 62 at count 90 (where exact arithmetic would give 63), and 280
at count 400. -/
def pyIntTimes07 (count : Nat) : Nat :=
  roundSig53 (roundSig53 count * double07num) / 2 ^ 52

/-- `int(count * 0.3)` with IEEE-754 binary64 semantics (see
`pyIntTimes07`): 1 at count 5, 27 at count 90, 120 at count 400. -/
def pyIntTimes03 (count : Nat) : Nat :=
  roundSig53 (roundSig53 count * double03num) / 2 ^ 54

/-- `generate_budget_examples(count)`: `int(count*0.7)` expense examples
followed by `int(count*0.3)` income examples, the truncations taken with
the float semantics of the source. -/
def generate_budget_examples (count : Nat) (r : Rand) : Option (List Example × Rand) := do
  let (expenses, r1) ← genListAux genBudgetExpenseOne (pyIntTimes07 count) r
  let (incomes, r2) ← genListAux genBudgetIncomeOne (pyIntTimes03 count) r1
  pure (expenses ++ incomes, r2)

/-! ### SHOPPING generator (lines 133-184) -/

def shopping_templates : List String :=
  ["buy {item}",
   "get {item}",
   "need {item}",
   "pick up {item}",
   "grab {item}",
   "I need to buy {item}",
   "get me {item}",
   "shopping: {item}",
   "{item} from the store",
   "need to get {item}",
   "buy {item} and {item2}",
   "{item} {item2} and {item3}",
   "get {item} the {variant} kind",
   "pick up {item} and maybe {item2}",
   "I need {item} later",
   "grab some {item}",
   "buy a {item}"]

def shopping_items : List String :=
  ["milk", "eggs", "bread", "cheese", "butter", "coffee", "tea",
   "bananas", "apples", "oranges", "tomatoes", "lettuce", "spinach",
   "chicken", "beef", "fish", "pasta", "rice", "flour", "sugar",
   "toilet paper", "paper towels", "laundry detergent", "dish soap",
   "shampoo", "toothpaste", "soap", "tissues", "batteries", "lightbulbs",
   "cat food", "dog food", "diapers", "baby wipes", "formula",
   "yogurt", "cereal", "oats", "nuts", "chocolate", "snacks",
   "olive oil", "salt", "pepper", "garlic", "onions", "carrots"]

def shopping_variants : List String :=
  ["organic", "unsweetened", "low fat", "whole wheat", "gluten free",
   "fresh", "frozen", "canned", "large", "small", "cheap"]

/-- One shopping example (lines 173-182), parameterised by the template
table so that expanding a template with an undeclared slot can be
exercised; the script's generator instantiates it with
`shopping_templates`. -/
def genShoppingOneWith (templates : List String) (r : Rand) : Option (Example × Rand) :=
  let (template, r1) := choice templates r
  let (item, r2) := choice shopping_items r1
  let (item2, r3) := choice shopping_items r2
  let (item3, r4) := choice shopping_items r3
  let (variant, r5) := choice shopping_variants r4
  match pyFormat template [("item", item), ("item2", item2),
      ("item3", item3), ("variant", variant)] with
  | none => none
  | some s =>
    let (s2, r6) := add_typos s 0.12 r5
    some (⟨s2, "SHOPPING"⟩, r6)

/-- `generate_shopping_examples(count)`. -/
def generate_shopping_examples (count : Nat) (r : Rand) : Option (List Example × Rand) :=
  genListAux (genShoppingOneWith shopping_templates) count r

/-! ### REMINDER generator (lines 187-241) -/

def reminder_templates : List String :=
  ["remind me to {action}",
   "call {person} {when}",
   "don\x27t forget to {action}",
   "remind me {action}",
   "{action} {when}",
   "set a reminder to {action}",
   "remember to {action}",
   "I need to {action} {when}",
   "remind me to {action} at {time}",
   "don\x27t forget {action}",
   "{action} before {deadline}",
   "reminder: {action}",
   "need to remember to {action}",
   "make sure to {action}"]

def reminder_actions : List String :=
  ["pay the bill", "call the dentist", "pick up the kids",
   "take out the trash", "water the plants", "feed the cat",
   "check the mail", "reply to that email", "submit the report",
   "backup my files", "renew the subscription", "cancel the trial",
   "pick up dry cleaning", "take medication", "stretch",
   "practice guitar", "go to the gym", "send the invoice",
   "book the appointment", "pay rent", "change the password"]

def reminder_people : List String :=
  ["mom", "john", "sarah", "the dentist", "the plumber", "the vet",
   "my boss", "anna", "mark"]

def reminder_when_options : List String :=
  ["tomorrow", "later", "tonight", "next week", "on friday",
   "this weekend", "in the morning", "after work", "before bed",
   "next monday", "on tuesday", "wednesday", "at 3pm"]

def reminder_times : List String :=
  ["5pm", "8am", "10:30", "3pm", "6:00", "noon", "9am"]

def reminder_deadlines : List String :=
  ["friday", "the end of month", "next week", "tomorrow", "5pm", "the weekend"]

/-- One reminder example (lines 229-239). -/
def genReminderOne (r : Rand) : Option (Example × Rand) :=
  let (template, r1) := choice reminder_templates r
  let (action, r2) := choice reminder_actions r1
  let (person, r3) := choice reminder_people r2
  let (whenv, r4) := choice reminder_when_options r3
  let (time, r5) := choice reminder_times r4
  let (deadline, r6) := choice reminder_deadlines r5
  match pyFormat template [("action", action), ("person", person),
      ("when", whenv), ("time", time), ("deadline", deadline)] with
  | none => none
  | some s =>
    let (s2, r7) := add_typos s 0.12 r6
    some (⟨s2, "REMINDER"⟩, r7)

/-- `generate_reminder_examples(count)`. -/
def generate_reminder_examples (count : Nat) (r : Rand) : Option (List Example × Rand) :=
  genListAux genReminderOne count r

/-! ### CALENDAR generator (lines 244-299) -/

def calendar_templates : List String :=
  ["{event} {when} at {time}",
   "{event} on {day}",
   "{event} {when}",
   "meeting with {person} {when}",
   "{event} every {frequency}",
   "appointment {when} at {time}",
   "{event} {date} at {time}",
   "schedule {event} {when}",
   "{event} {when} {time}",
   "recurring: {event} {frequency}",
   "{event} departs {when}",
   "{event} starts {when}"]

def calendar_events : List String :=
  ["dentist appointment", "doctor appointment", "team meeting", "standup",
   "dinner", "lunch", "coffee", "yoga class", "gym session",
   "conference", "webinar", "interview", "presentation",
   "flight", "haircut", "parent teacher meeting", "book club",
   "project kickoff", "team sync", "review meeting", "call",
   "playdate", "party", "wedding", "birthday dinner"]

def calendar_people : List String :=
  ["sarah", "the client", "john", "anna", "the team", "my boss", "mark", "lisa"]

def calendar_when_options : List String :=
  ["tomorrow", "next monday", "friday", "next week",
   "on tuesday", "wednesday morning", "thursday afternoon",
   "this saturday", "next month", "in june", "on the 5th"]

def calendar_days : List String :=
  ["monday", "tuesday", "wednesday", "thursday", "friday", "saturday", "sunday"]

def calendar_times : List String :=
  ["9am", "2:30pm", "10:30", "6pm", "8:00", "11am", "3pm", "7:30pm", "14:00", "16:00"]

def calendar_dates : List String :=
  ["march 21", "july 3", "june 12", "oct 10", "12/11", "august 5", "1st august"]

def calendar_frequencies : List String :=
  ["monday", "weekday", "week", "month", "tuesday and thursday", "saturday"]

/-- One calendar example (lines 285-297). -/
def genCalendarOne (r : Rand) : Option (Example × Rand) :=
  let (template, r1) := choice calendar_templates r
  let (event, r2) := choice calendar_events r1
  let (person, r3) := choice calendar_people r2
  let (whenv, r4) := choice calendar_when_options r3
  let (day, r5) := choice calendar_days r4
  let (time, r6) := choice calendar_times r5
  let (date, r7) := choice calendar_dates r6
  let (frequency, r8) := choice calendar_frequencies r7
  match pyFormat template [("event", event), ("person", person),
      ("when", whenv), ("day", day), ("time", time), ("date", date),
      ("frequency", frequency)] with
  | none => none
  | some s =>
    let (s2, r9) := add_typos s 0.12 r8
    some (⟨s2, "CALENDAR"⟩, r9)

/-- `generate_calendar_examples(count)`. -/
def generate_calendar_examples (count : Nat) (r : Rand) : Option (List Example × Rand) :=
  genListAux genCalendarOne count r

/-! ### NOTE generator (lines 302-393) -/

def note_templates : List String :=
  ["I\x27m thinking about {topic}",
   "maybe {idea}",
   "note: {observation}",
   "idea: {idea}",
   "random thought: {thought}",
   "noted that {observation}",
   "brainstorm: {idea}",
   "observation: {observation}",
   "I should {goal}",
   "thinking {topic}",
   "mental note: {thought}",
   "jot: {observation}",
   "feeling {emotion} about {topic}",
   "wish list: {desire}",
   "planning {plan}",
   "remembered {thought}",
   "{observation} - worth noting",
   "I noticed {observation}",
   "had a thought about {topic}",
   "considering {idea}"]

def note_topics : List String :=
  ["learning to cook", "switching jobs", "getting a new car",
   "redecorating the room", "starting a blog", "learning guitar",
   "improving my health", "reading more", "traveling",
   "the project strategy", "better file organization", "productivity"]

def note_ideas : List String :=
  ["start a podcast", "try meal prepping", "take a course",
   "get a standing desk", "automate the reports", "weekend hackathon",
   "solar panels might be good", "switch to a better app",
   "organize a team event", "create a side project"]

def note_observations : List String :=
  ["the car is making noise", "traffic is worse on thursdays",
   "my focus is better mornings", "the fridge light is flickering",
   "meetings run long without agenda", "the plant needs less water",
   "the neighbor is loud", "battery on laptop is dying",
   "coffee at main street is amazing", "need better cable management"]

def note_thoughts : List String :=
  ["try meditation for 10 days", "book a weekend off",
   "look into co-working spaces", "research VPN providers",
   "check warranty dates", "experiment with new recipe",
   "probably shouldn\x27t overcommit", "learning new skill might be fun"]

def note_emotions : List String :=
  ["good", "excited", "worried", "optimistic", "uncertain",
   "confident", "hopeful", "curious", "motivated"]

def note_desires : List String :=
  ["new laptop", "better running shoes", "standing desk",
   "comfortable chair", "noise cancelling headphones", "new sofa"]

def note_plans : List String :=
  ["to paint the room", "weekend trip", "garden project",
   "home office setup", "to reorganize closet", "meal plan for week"]

def note_goals : List String :=
  ["learn a new language", "read more books", "exercise regularly",
   "save more money", "network more", "improve my skills"]

/-- One note example (lines 378-391). -/
def genNoteOne (r : Rand) : Option (Example × Rand) :=
  let (template, r1) := choice note_templates r
  let (topic, r2) := choice note_topics r1
  let (idea, r3) := choice note_ideas r2
  let (observation, r4) := choice note_observations r3
  let (thought, r5) := choice note_thoughts r4
  let (emotion, r6) := choice note_emotions r5
  let (desire, r7) := choice note_desires r6
  let (plan, r8) := choice note_plans r7
  let (goal, r9) := choice note_goals r8
  match pyFormat template [("topic", topic), ("idea", idea),
      ("observation", observation), ("thought", thought),
      ("emotion", emotion), ("desire", desire), ("plan", plan),
      ("goal", goal)] with
  | none => none
  | some s =>
    let (s2, r10) := add_typos s 0.12 r9
    some (⟨s2, "NOTE"⟩, r10)

/-- `generate_note_examples(count)`. -/
def generate_note_examples (count : Nat) (r : Rand) : Option (List Example × Rand) :=
  genListAux genNoteOne count r

/-! ### QUOTE generator (lines 396-461) -/

def quote_templates : List String :=
  ["from {source}: {content}",
   "from {source} page {page}: {content}",
   "from {source} minute {minute}: {content}",
   "from {source} chapter {chapter}: {content}",
   "{source} says: {content}",
   "quote from {source}: {content}",
   "read in {source}: {content}",
   "from {person}\x27s {medium}: {content}",
   "from that {medium} about {topic}: {content}"]

def quote_sources : List String :=
  ["atomic habits", "thinking fast and slow", "deep work", "the mom test",
   "sapiens", "range", "grit", "blink", "drive", "quiet", "flow",
   "the lean startup", "start with why", "how to win friends",
   "huberman lab", "lex friedman podcast", "ted talk", "veritasium",
   "new york times", "economist", "bbc documentary", "youtube video",
   "that article", "the lecture", "the interview", "the study"]

def quote_content : List String :=
  ["you do not rise to goals you fall to systems",
   "small wins compound over time",
   "focus on why not what",
   "sleep impacts memory consolidation",
   "multitasking reduces productivity",
   "consistency beats intensity",
   "automation saves time",
   "caffeine has a 5 hour half life",
   "humans cooperate in large numbers",
   "persistence beats talent",
   "depth beats shallow work",
   "breadth can beat specialization",
   "exercise improves mood",
   "reading increases vocabulary"]

def quote_people : List String :=
  ["sam altman", "bill gates", "huberman", "james clear", "tim ferriss"]

def quote_mediums : List String :=
  ["podcast", "interview", "talk", "video", "book"]

def quote_topics : List String :=
  ["productivity", "sleep", "AI", "habits", "learning", "health"]

def quote_pages : List String := ["12", "32", "45", "88", "104"]

def quote_minutes : List String := ["5", "10", "12", "22", "33", "45", "55"]

def quote_chapters : List String := ["1", "2", "3", "4", "5"]

/-- One quote example (lines 446-459). -/
def genQuoteOne (r : Rand) : Option (Example × Rand) :=
  let (template, r1) := choice quote_templates r
  let (source, r2) := choice quote_sources r1
  let (content, r3) := choice quote_content r2
  let (person, r4) := choice quote_people r3
  let (medium, r5) := choice quote_mediums r4
  let (topic, r6) := choice quote_topics r5
  let (page, r7) := choice quote_pages r6
  let (minute, r8) := choice quote_minutes r7
  let (chapter, r9) := choice quote_chapters r8
  match pyFormat template [("source", source), ("content", content),
      ("person", person), ("medium", medium), ("topic", topic),
      ("page", page), ("minute", minute), ("chapter", chapter)] with
  | none => none
  | some s =>
    let (s2, r10) := add_typos s 0.1 r9
    some (⟨s2, "QUOTE"⟩, r10)

/-- `generate_quote_examples(count)`. -/
def generate_quote_examples (count : Nat) (r : Rand) : Option (List Example × Rand) :=
  genListAux genQuoteOne count r

/-! ### Ambiguous generator (lines 464-508) -/

/-- The curated static list of lines 469-502: nineteen `(text, label)`
pairs. -/
def ambiguous_list : List (String × String) :=
  [("buy milk before 5pm", "SHOPPING"),
   ("need to get eggs tomorrow", "SHOPPING"),
   ("pick up bread on the way home", "SHOPPING"),
   ("remind me to buy groceries", "REMINDER"),
   ("don\x27t forget shopping list", "REMINDER"),
   ("spent 20 on milk and eggs", "BUDGET"),
   ("paid 15 for groceries", "BUDGET"),
   ("dentist appointment tuesday costs 150", "CALENDAR"),
   ("meeting at 3pm about the budget", "CALENDAR"),
   ("should probably call mom", "NOTE"),
   ("thinking I need to exercise more", "NOTE"),
   ("maybe learn guitar", "NOTE"),
   ("milk", "SHOPPING"),
   ("tomorrow", "REMINDER"),
   ("call john", "REMINDER"),
   ("coffee", "SHOPPING"),
   ("spent 50 and need to buy more", "BUDGET"),
   ("buy milk and call mom", "SHOPPING"),
   ("meeting tomorrow about groceries", "CALENDAR")]

/-- The loop of lines 504-506: each selected pair is passed through
`add_typos(text, 0.15)` and appended in order. -/
def genAmbiguousAux : List (String × String) → Rand → List Example × Rand
  | [], r => ([], r)
  | (t, lab) :: rest, r =>
    let (t2, r1) := add_typos t 0.15 r
    let (es, r2) := genAmbiguousAux rest r1
    (⟨t2, lab⟩ :: es, r2)

/-- `generate_ambiguous_examples(count)`: truncates the static list to
`count` entries (`ambiguous[:count]`). -/
def generate_ambiguous_examples (count : Nat) (r : Rand) : List Example × Rand :=
  genAmbiguousAux (ambiguous_list.take count) r

/-! ### Corpus assembly (lines 511-544) -/

/-- In-place swap `x[i], x[j] = x[j], x[i]` on a list (identity when an
index is out of range, which the shuffle never produces). -/
def listSwap {α : Type} (l : List α) (i j : Nat) : List α :=
  if h : i < l.length ∧ j < l.length then
    (l.set i (l.get ⟨j, h.2⟩)).set j (l.get ⟨i, h.1⟩)
  else l

/-- Fisher-Yates loop of `random.shuffle`: for `i` descending from
`len-1` to `1`, draw `j` uniformly in `[0, i]` and swap.  The argument is
the current index `i`. -/
def shuffleGo {α : Type} : Nat → List α → Rand → List α × Rand
  | 0, l, r => (l, r)
  | i + 1, l, r =>
    let (v, r1) := next r
    let j := v % (i + 2)
    shuffleGo i (listSwap l (i + 1) j) r1

/-- Model of `random.shuffle(x)`. -/
def pyShuffle {α : Type} (l : List α) (r : Rand) : List α × Rand :=
  match l.length with
  | 0 => (l, r)
  | n + 1 => shuffleGo n l r

/-- The terminal artifact: `{"train": [...], "test": [...]}`. -/
structure Corpus where
  train : List Example
  test : List Example
deriving DecidableEq

/-- `split_idx = int(len(examples) * split_ratio)` (line 542). -/
def splitIndex (l : List Example) (ratio : Rat) : Nat :=
  (Rat.floor ((l.length : Rat) * ratio)).toNat

/-- Lines 542-544: truncating split into train `[0, split_idx)` and test
`[split_idx, len)`. -/
def trainTestSplit (l : List Example) (ratio : Rat) : Corpus :=
  { train := l.take (splitIndex l ratio), test := l.drop (splitIndex l ratio) }

/-- Number of examples of a list carrying a given label (the quantity
tallied by the script's distribution report). -/
def labelCount (l : List Example) (lab : String) : Nat :=
  List.count lab (l.map (fun e => e.label))

/-- The label tally the configuration promises: each plain category
contributes its requested count, BUDGET contributes
`int(count*0.7) + int(count*0.3)` under the source's float semantics, and
the truncated ambiguous list contributes its own labels. -/
def expectedLabelCount (nB nS nR nC nN nQ nA : Nat) (lab : String) : Nat :=
  (if lab = "BUDGET" then pyIntTimes07 nB + pyIntTimes03 nB else 0) +
  ((if lab = "SHOPPING" then nS else 0) +
   ((if lab = "REMINDER" then nR else 0) +
    ((if lab = "CALENDAR" then nC else 0) +
     ((if lab = "NOTE" then nN else 0) +
      ((if lab = "QUOTE" then nQ else 0) +
       List.count lab ((ambiguous_list.take nA).map Prod.snd))))))

/-- Lines 519-536: run every category generator with its configured count
and concatenate the outputs in the fixed order BUDGET, SHOPPING, REMINDER,
CALENDAR, NOTE, QUOTE, ambiguous. -/
def allExamples (nB nS nR nC nN nQ nA : Nat) (r : Rand) : Option (List Example × Rand) := do
  let (budget, r1) ← generate_budget_examples nB r
  let (shopping, r2) ← generate_shopping_examples nS r1
  let (reminder, r3) ← generate_reminder_examples nR r2
  let (calendar, r4) ← generate_calendar_examples nC r3
  let (note, r5) ← generate_note_examples nN r4
  let (quote, r6) ← generate_quote_examples nQ r5
  let (ambiguous, r7) := generate_ambiguous_examples nA r6
  pure (budget ++ shopping ++ reminder ++ calendar ++ note ++ quote ++ ambiguous, r7)

/-- The assembler (lines 519-544): generate, concatenate, seeded shuffle,
truncating split. -/
def assemble (nB nS nR nC nN nQ nA : Nat) (ratio : Rat) (r : Rand) : Option Corpus := do
  let (all, r7) ← allExamples nB nS nR nC nN nQ nA r
  let (shuffled, _) := pyShuffle all r7
  pure (trainTestSplit shuffled ratio)

/-- `main()` with the script's configured counts (lines 519-525), split
ratio 0.9 and the stream `g` of the fixed seed. -/
def main_corpus (g : Nat → Nat) : Option Corpus :=
  assemble 400 400 300 300 500 300 100 0.9 ⟨g, 0⟩

/-! ### Two template-expansion semantics, for the slot-occurrence claim -/

/-- Draw one value per declared pool, in declaration order — this is how
every category generator builds the keyword environment (one
`random.choice` per keyword argument, evaluated once per example). -/
def drawEnv : List (String × List String) → Rand → List (String × String) × Rand
  | [], r => ([], r)
  | (n, pool) :: rest, r =>
    let (v, r1) := choice pool r
    let (env, r2) := drawEnv rest r1
    ((n, v) :: env, r2)

/-- Source semantics of one expansion: one draw per slot NAME, then
`str.format`, exactly as the generators do. -/
def expandPerName (template : String) (pools : List (String × List String)) (r : Rand) : Option String :=
  pyFormat template (drawEnv pools r).1

/-- Modelled from the spec claim words: "each occurrence of a slot is
filled by an independent uniform draw from its pool".  This semantics does
NOT occur in the source; it exists only to be compared against
`expandPerName`. -/
def expandPerOccurrenceAux (pools : List (String × List String)) :
    Nat → List Char → Rand → Option (List Char × Rand)
  | _, [], r => some ([], r)
  | 0, _ :: _, _ => none
  | fuel + 1, c :: rest, r =>
    if c = '\x7b' then
      let name := rest.takeWhile (fun d => d ≠ '\x7d')
      match rest.dropWhile (fun d => d ≠ '\x7d') with
      | [] => none
      | _ :: rest2 =>
        match alookup (String.mk name) pools with
        | none => none
        | some pool =>
          let (v, r1) := choice pool r
          match expandPerOccurrenceAux pools fuel rest2 r1 with
          | none => none
          | some (out, r2) => some (v.data ++ out, r2)
    else
      match expandPerOccurrenceAux pools fuel rest r with
      | none => none
      | some (out, r1) => some (c :: out, r1)

/-- Per-occurrence expansion of a whole template (the claim's semantics). -/
def expandPerOccurrence (template : String) (pools : List (String × List String)) (r : Rand) : Option String :=
  (expandPerOccurrenceAux pools template.data.length template.data r).map
    (fun p => String.mk p.1)

/-! ### Basic lemmas about the primitives -/

/-- `random.choice` on a non-empty list returns an element of the list. -/
lemma choice_mem {α : Type} [Inhabited α] {l : List α} (h : l ≠ []) (r : Rand) :
    (choice l r).1 ∈ l := by
  have hlen : 0 < l.length := List.length_pos.mpr h
  have hlt : (next r).1 % l.length < l.length := Nat.mod_lt _ hlen
  simp only [choice]
  rw [List.getD_eq_getElem _ _ hlt]
  exact List.getElem_mem hlt

/-- Lookup succeeds exactly when the key occurs among the keys. -/
lemma alookup_isSome {α : Type} (k : String) (env : List (String × α)) :
    (alookup k env).isSome = (env.map Prod.fst).contains k := by
  induction env with
  | nil => rfl
  | cons p rest ih =>
    obtain ⟨k2, v⟩ := p
    by_cases hk : k = k2
    · subst hk; simp [alookup]
    · simp [alookup, hk, ih, Ne.symm hk]

/-- `str.format` succeeds exactly when every slot is declared (and every
brace closes): the success of `formatAux` coincides with `slotsOkAux` over
the keys of the environment. -/
lemma formatAux_isSome (env : List (String × String)) :
    ∀ (fuel : Nat) (s : List Char),
      (formatAux env fuel s).isSome = slotsOkAux (env.map Prod.fst) fuel s := by
  intro fuel
  induction fuel with
  | zero => intro s; cases s <;> rfl
  | succ n ih =>
    intro s
    cases s with
    | nil => rfl
    | cons c rest =>
      by_cases hc : c = '\x7b'
      · cases hdrop : rest.dropWhile (fun d => d ≠ '\x7d') with
        | nil => simp only [formatAux, slotsOkAux, if_pos hc, hdrop]; rfl
        | cons d rest2 =>
          simp only [formatAux, slotsOkAux, if_pos hc, hdrop]
          rw [← alookup_isSome]
          have hrec := ih rest2
          cases hl : alookup (String.mk (rest.takeWhile (fun d => d ≠ '\x7d'))) env with
          | none => simp
          | some v =>
            cases hf : formatAux env n rest2 with
            | none => rw [hf] at hrec; simp [← hrec]
            | some out => rw [hf] at hrec; simp [← hrec]
      · simp only [formatAux, slotsOkAux, if_neg hc]
        have hrec := ih rest
        cases hf : formatAux env n rest with
        | none => rw [hf] at hrec; simp [← hrec]
        | some out => rw [hf] at hrec; simp [← hrec]

/-- If all slots of `t` are declared among the environment's keys, the
format call succeeds. -/
lemma pyFormat_isSome (t : String) (env : List (String × String))
    (h : slotsOk (env.map Prod.fst) t = true) : ∃ s, pyFormat t env = some s := by
  have := formatAux_isSome env t.data.length t.data
  rw [slotsOk] at h
  rw [h] at this
  cases hf : formatAux env t.data.length t.data with
  | none => rw [hf] at this; simp at this
  | some out =>
    refine ⟨String.mk out, ?_⟩
    unfold pyFormat
    rw [hf]
    rfl

/-- When the uniform draw strictly exceeds the rate, `add_typos` returns
the text unchanged and consumes exactly one draw. -/
lemma add_typos_skip (t : String) (rate : Rat) (r : Rand)
    (h : rate < (randFloat r).1) :
    add_typos t rate r = (t, (randFloat r).2) := by
  rcases hrf : randFloat r with ⟨d, r1⟩
  rw [hrf] at h
  simp only [add_typos, hrf]
  rw [if_pos h]

/-- When the pattern does not occur, Python `str.replace` is the
identity (character-list level). -/
lemma pyReplaceAux_no_occ (pat rep : List Char) :
    ∀ (fuel : Nat) (s : List Char), containsSub s pat = false →
      pyReplaceAux pat rep fuel s = s := by
  intro fuel
  induction fuel with
  | zero => intro s _; cases s <;> rfl
  | succ n ih =>
    intro s hs
    cases s with
    | nil => rfl
    | cons c rest =>
      simp only [containsSub, Bool.or_eq_false_iff] at hs
      simp [pyReplaceAux, hs.1, ih rest hs.2]

/-- When the pattern does not occur, Python `str.replace` is the
identity. -/
lemma pyReplace_no_occ (s pat rep : String) (h : strContains s pat = false) :
    pyReplace s pat rep = s := by
  rw [pyReplace, pyReplaceAux_no_occ pat.data rep.data s.data.length s.data h]

/-! ### Per-generator success lemmas: every per-example step succeeds on
the script's template tables (all slots are declared), and carries the
generator's fixed label. -/

/-- One shopping step always succeeds when the template table's slots are
all declared (as `shopping_templates`'s are). -/
lemma genShoppingOneWith_spec (ts : List String) (hne : ts ≠ [])
    (hall : ts.all (fun t => slotsOk ["item", "item2", "item3", "variant"] t) = true)
    (r : Rand) :
    ∃ e r', genShoppingOneWith ts r = some (e, r') ∧ e.label = "SHOPPING" := by
  have hmem := choice_mem hne r
  rcases hch : choice ts r with ⟨T, r1⟩
  rw [hch] at hmem
  rcases h2 : choice shopping_items r1 with ⟨w1, r2⟩
  rcases h3 : choice shopping_items r2 with ⟨w2, r3⟩
  rcases h4 : choice shopping_items r3 with ⟨w3, r4⟩
  rcases h5 : choice shopping_variants r4 with ⟨w4, r5⟩
  have hok : slotsOk (([("item", w1), ("item2", w2), ("item3", w3),
      ("variant", w4)] : List (String × String)).map Prod.fst) T = true := by
    simpa using List.all_eq_true.mp hall T hmem
  obtain ⟨s, hs⟩ := pyFormat_isSome T
    [("item", w1), ("item2", w2), ("item3", w3), ("variant", w4)] hok
  refine ⟨⟨(add_typos s 0.12 r5).1, "SHOPPING"⟩, (add_typos s 0.12 r5).2, ?_, rfl⟩
  simp only [genShoppingOneWith, hch, h2, h3, h4, h5, hs]

/-- One budget-expense step always succeeds with label BUDGET. -/
lemma genBudgetExpenseOne_spec (r : Rand) :
    ∃ e r', genBudgetExpenseOne r = some (e, r') ∧ e.label = "BUDGET" := by
  have hne : expense_templates ≠ [] := by decide
  have hall : expense_templates.all
      (fun t => slotsOk ["amount", "amount2", "currency", "item", "place"] t) = true := by rfl
  have hmem := choice_mem hne r
  rcases hch : choice expense_templates r with ⟨T, r1⟩
  rw [hch] at hmem
  rcases h2 : choice budget_amounts r1 with ⟨w1, r2⟩
  rcases h3 : choice budget_amounts r2 with ⟨w2, r3⟩
  rcases h4 : choice budget_currencies r3 with ⟨w3, r4⟩
  rcases h5 : choice budget_items r4 with ⟨w4, r5⟩
  rcases h6 : choice budget_places r5 with ⟨w5, r6⟩
  have hok : slotsOk (([("amount", w1), ("amount2", w2), ("currency", w3),
      ("item", w4), ("place", w5)] : List (String × String)).map Prod.fst) T = true := by
    simpa using List.all_eq_true.mp hall T hmem
  obtain ⟨s, hs⟩ := pyFormat_isSome T
    [("amount", w1), ("amount2", w2), ("currency", w3), ("item", w4), ("place", w5)] hok
  refine ⟨⟨(add_typos s 0.15 r6).1, "BUDGET"⟩, (add_typos s 0.15 r6).2, ?_, rfl⟩
  simp only [genBudgetExpenseOne, hch, h2, h3, h4, h5, h6, hs]

/-- One budget-income step always succeeds with label BUDGET. -/
lemma genBudgetIncomeOne_spec (r : Rand) :
    ∃ e r', genBudgetIncomeOne r = some (e, r') ∧ e.label = "BUDGET" := by
  have hne : income_templates ≠ [] := by decide
  have hall : income_templates.all
      (fun t => slotsOk ["amount", "currency", "item", "source"] t) = true := by rfl
  have hmem := choice_mem hne r
  rcases hch : choice income_templates r with ⟨T, r1⟩
  rw [hch] at hmem
  rcases h2 : choice budget_amounts r1 with ⟨w1, r2⟩
  rcases h3 : choice budget_currencies r2 with ⟨w2, r3⟩
  rcases h4 : choice budget_items r3 with ⟨w3, r4⟩
  rcases h5 : choice budget_sources r4 with ⟨w4, r5⟩
  have hok : slotsOk (([("amount", w1), ("currency", w2), ("item", w3),
      ("source", w4)] : List (String × String)).map Prod.fst) T = true := by
    simpa using List.all_eq_true.mp hall T hmem
  obtain ⟨s, hs⟩ := pyFormat_isSome T
    [("amount", w1), ("currency", w2), ("item", w3), ("source", w4)] hok
  refine ⟨⟨(add_typos s 0.15 r5).1, "BUDGET"⟩, (add_typos s 0.15 r5).2, ?_, rfl⟩
  simp only [genBudgetIncomeOne, hch, h2, h3, h4, h5, hs]

/-- One reminder step always succeeds with label REMINDER. -/
lemma genReminderOne_spec (r : Rand) :
    ∃ e r', genReminderOne r = some (e, r') ∧ e.label = "REMINDER" := by
  have hne : reminder_templates ≠ [] := by decide
  have hall : reminder_templates.all
      (fun t => slotsOk ["action", "person", "when", "time", "deadline"] t) = true := by rfl
  have hmem := choice_mem hne r
  rcases hch : choice reminder_templates r with ⟨T, r1⟩
  rw [hch] at hmem
  rcases h2 : choice reminder_actions r1 with ⟨w1, r2⟩
  rcases h3 : choice reminder_people r2 with ⟨w2, r3⟩
  rcases h4 : choice reminder_when_options r3 with ⟨w3, r4⟩
  rcases h5 : choice reminder_times r4 with ⟨w4, r5⟩
  rcases h6 : choice reminder_deadlines r5 with ⟨w5, r6⟩
  have hok : slotsOk (([("action", w1), ("person", w2), ("when", w3),
      ("time", w4), ("deadline", w5)] : List (String × String)).map Prod.fst) T = true := by
    simpa using List.all_eq_true.mp hall T hmem
  obtain ⟨s, hs⟩ := pyFormat_isSome T
    [("action", w1), ("person", w2), ("when", w3), ("time", w4), ("deadline", w5)] hok
  refine ⟨⟨(add_typos s 0.12 r6).1, "REMINDER"⟩, (add_typos s 0.12 r6).2, ?_, rfl⟩
  simp only [genReminderOne, hch, h2, h3, h4, h5, h6, hs]

/-- One calendar step always succeeds with label CALENDAR. -/
lemma genCalendarOne_spec (r : Rand) :
    ∃ e r', genCalendarOne r = some (e, r') ∧ e.label = "CALENDAR" := by
  have hne : calendar_templates ≠ [] := by decide
  have hall : calendar_templates.all
      (fun t => slotsOk ["event", "person", "when", "day", "time", "date", "frequency"] t)
      = true := by rfl
  have hmem := choice_mem hne r
  rcases hch : choice calendar_templates r with ⟨T, r1⟩
  rw [hch] at hmem
  rcases h2 : choice calendar_events r1 with ⟨w1, r2⟩
  rcases h3 : choice calendar_people r2 with ⟨w2, r3⟩
  rcases h4 : choice calendar_when_options r3 with ⟨w3, r4⟩
  rcases h5 : choice calendar_days r4 with ⟨w4, r5⟩
  rcases h6 : choice calendar_times r5 with ⟨w5, r6⟩
  rcases h7 : choice calendar_dates r6 with ⟨w6, r7⟩
  rcases h8 : choice calendar_frequencies r7 with ⟨w7, r8⟩
  have hok : slotsOk (([("event", w1), ("person", w2), ("when", w3),
      ("day", w4), ("time", w5), ("date", w6), ("frequency", w7)] :
      List (String × String)).map Prod.fst) T = true := by
    simpa using List.all_eq_true.mp hall T hmem
  obtain ⟨s, hs⟩ := pyFormat_isSome T
    [("event", w1), ("person", w2), ("when", w3), ("day", w4), ("time", w5),
     ("date", w6), ("frequency", w7)] hok
  refine ⟨⟨(add_typos s 0.12 r8).1, "CALENDAR"⟩, (add_typos s 0.12 r8).2, ?_, rfl⟩
  simp only [genCalendarOne, hch, h2, h3, h4, h5, h6, h7, h8, hs]

/-- One note step always succeeds with label NOTE. -/
lemma genNoteOne_spec (r : Rand) :
    ∃ e r', genNoteOne r = some (e, r') ∧ e.label = "NOTE" := by
  have hne : note_templates ≠ [] := by decide
  have hall : note_templates.all
      (fun t => slotsOk ["topic", "idea", "observation", "thought", "emotion",
        "desire", "plan", "goal"] t) = true := by rfl
  have hmem := choice_mem hne r
  rcases hch : choice note_templates r with ⟨T, r1⟩
  rw [hch] at hmem
  rcases h2 : choice note_topics r1 with ⟨w1, r2⟩
  rcases h3 : choice note_ideas r2 with ⟨w2, r3⟩
  rcases h4 : choice note_observations r3 with ⟨w3, r4⟩
  rcases h5 : choice note_thoughts r4 with ⟨w4, r5⟩
  rcases h6 : choice note_emotions r5 with ⟨w5, r6⟩
  rcases h7 : choice note_desires r6 with ⟨w6, r7⟩
  rcases h8 : choice note_plans r7 with ⟨w7, r8⟩
  rcases h9 : choice note_goals r8 with ⟨w8, r9⟩
  have hok : slotsOk (([("topic", w1), ("idea", w2), ("observation", w3),
      ("thought", w4), ("emotion", w5), ("desire", w6), ("plan", w7),
      ("goal", w8)] : List (String × String)).map Prod.fst) T = true := by
    simpa using List.all_eq_true.mp hall T hmem
  obtain ⟨s, hs⟩ := pyFormat_isSome T
    [("topic", w1), ("idea", w2), ("observation", w3), ("thought", w4),
     ("emotion", w5), ("desire", w6), ("plan", w7), ("goal", w8)] hok
  refine ⟨⟨(add_typos s 0.12 r9).1, "NOTE"⟩, (add_typos s 0.12 r9).2, ?_, rfl⟩
  simp only [genNoteOne, hch, h2, h3, h4, h5, h6, h7, h8, h9, hs]

/-- One quote step always succeeds with label QUOTE. -/
lemma genQuoteOne_spec (r : Rand) :
    ∃ e r', genQuoteOne r = some (e, r') ∧ e.label = "QUOTE" := by
  have hne : quote_templates ≠ [] := by decide
  have hall : quote_templates.all
      (fun t => slotsOk ["source", "content", "person", "medium", "topic",
        "page", "minute", "chapter"] t) = true := by rfl
  have hmem := choice_mem hne r
  rcases hch : choice quote_templates r with ⟨T, r1⟩
  rw [hch] at hmem
  rcases h2 : choice quote_sources r1 with ⟨w1, r2⟩
  rcases h3 : choice quote_content r2 with ⟨w2, r3⟩
  rcases h4 : choice quote_people r3 with ⟨w3, r4⟩
  rcases h5 : choice quote_mediums r4 with ⟨w4, r5⟩
  rcases h6 : choice quote_topics r5 with ⟨w5, r6⟩
  rcases h7 : choice quote_pages r6 with ⟨w6, r7⟩
  rcases h8 : choice quote_minutes r7 with ⟨w7, r8⟩
  rcases h9 : choice quote_chapters r8 with ⟨w8, r9⟩
  have hok : slotsOk (([("source", w1), ("content", w2), ("person", w3),
      ("medium", w4), ("topic", w5), ("page", w6), ("minute", w7),
      ("chapter", w8)] : List (String × String)).map Prod.fst) T = true := by
    simpa using List.all_eq_true.mp hall T hmem
  obtain ⟨s, hs⟩ := pyFormat_isSome T
    [("source", w1), ("content", w2), ("person", w3), ("medium", w4),
     ("topic", w5), ("page", w6), ("minute", w7), ("chapter", w8)] hok
  refine ⟨⟨(add_typos s 0.1 r9).1, "QUOTE"⟩, (add_typos s 0.1 r9).2, ?_, rfl⟩
  simp only [genQuoteOne, hch, h2, h3, h4, h5, h6, h7, h8, h9, hs]

/-! ### Whole-generator specifications -/

/-- The per-example loop: if every step succeeds with label `L`, the loop
returns exactly `n` examples, all labeled `L`. -/
lemma genListAux_spec (one : Rand → Option (Example × Rand)) (L : String)
    (hone : ∀ r, ∃ e r', one r = some (e, r') ∧ e.label = L) :
    ∀ (n : Nat) (r : Rand), ∃ l r', genListAux one n r = some (l, r') ∧
      l.length = n ∧ ∀ e ∈ l, e.label = L := by
  intro n
  induction n with
  | zero => intro r; exact ⟨[], r, rfl, rfl, by simp⟩
  | succ m ih =>
    intro r
    obtain ⟨e, r1, h1, hL⟩ := hone r
    obtain ⟨l, r2, h2, hlen, hmem⟩ := ih r1
    refine ⟨e :: l, r2, ?_, by simp [hlen], ?_⟩
    · simp [genListAux, h1, h2]
    · intro x hx
      rcases List.mem_cons.mp hx with h | h
      · subst h; exact hL
      · exact hmem x h

/-- `generate_budget_examples(count)` always succeeds, yields
`int(count*0.7) + int(count*0.3)` examples, all labeled BUDGET. -/
lemma generate_budget_spec (count : Nat) (r : Rand) :
    ∃ l r', generate_budget_examples count r = some (l, r') ∧
      l.length = pyIntTimes07 count + pyIntTimes03 count ∧
      ∀ e ∈ l, e.label = "BUDGET" := by
  obtain ⟨l1, r1, h1, hlen1, hmem1⟩ :=
    genListAux_spec _ _ genBudgetExpenseOne_spec (pyIntTimes07 count) r
  obtain ⟨l2, r2, h2, hlen2, hmem2⟩ :=
    genListAux_spec _ _ genBudgetIncomeOne_spec (pyIntTimes03 count) r1
  refine ⟨l1 ++ l2, r2, ?_, by simp [hlen1, hlen2], ?_⟩
  · simp [generate_budget_examples, h1, h2]
  · intro x hx
    rcases List.mem_append.mp hx with h | h
    · exact hmem1 x h
    · exact hmem2 x h

/-- `generate_shopping_examples(count)` always succeeds with exactly
`count` SHOPPING examples. -/
lemma generate_shopping_spec (count : Nat) (r : Rand) :
    ∃ l r', generate_shopping_examples count r = some (l, r') ∧
      l.length = count ∧ ∀ e ∈ l, e.label = "SHOPPING" :=
  genListAux_spec _ _
    (genShoppingOneWith_spec shopping_templates (by decide) (by rfl)) count r

/-- `generate_reminder_examples(count)` always succeeds with exactly
`count` REMINDER examples. -/
lemma generate_reminder_spec (count : Nat) (r : Rand) :
    ∃ l r', generate_reminder_examples count r = some (l, r') ∧
      l.length = count ∧ ∀ e ∈ l, e.label = "REMINDER" :=
  genListAux_spec _ _ genReminderOne_spec count r

/-- `generate_calendar_examples(count)` always succeeds with exactly
`count` CALENDAR examples. -/
lemma generate_calendar_spec (count : Nat) (r : Rand) :
    ∃ l r', generate_calendar_examples count r = some (l, r') ∧
      l.length = count ∧ ∀ e ∈ l, e.label = "CALENDAR" :=
  genListAux_spec _ _ genCalendarOne_spec count r

/-- `generate_note_examples(count)` always succeeds with exactly `count`
NOTE examples. -/
lemma generate_note_spec (count : Nat) (r : Rand) :
    ∃ l r', generate_note_examples count r = some (l, r') ∧
      l.length = count ∧ ∀ e ∈ l, e.label = "NOTE" :=
  genListAux_spec _ _ genNoteOne_spec count r

/-- `generate_quote_examples(count)` always succeeds with exactly `count`
QUOTE examples. -/
lemma generate_quote_spec (count : Nat) (r : Rand) :
    ∃ l r', generate_quote_examples count r = some (l, r') ∧
      l.length = count ∧ ∀ e ∈ l, e.label = "QUOTE" :=
  genListAux_spec _ _ genQuoteOne_spec count r

/-- The ambiguous loop preserves the pair labels, in order. -/
lemma genAmbiguousAux_labels : ∀ (l : List (String × String)) (r : Rand),
    (genAmbiguousAux l r).1.map (fun e => e.label) = l.map Prod.snd := by
  intro l
  induction l with
  | nil => intro r; rfl
  | cons p rest ih =>
    intro r
    obtain ⟨t, lab⟩ := p
    rcases hat : add_typos t 0.15 r with ⟨t2, r1⟩
    simp [genAmbiguousAux, hat, ih]

/-- The ambiguous loop returns one example per input pair. -/
lemma genAmbiguousAux_length (l : List (String × String)) (r : Rand) :
    (genAmbiguousAux l r).1.length = l.length := by
  have h := congrArg List.length (genAmbiguousAux_labels l r)
  simpa using h

/-- When every draw of the stream exceeds the 0.15 rate, the ambiguous
loop also preserves the pair texts verbatim. -/
lemma genAmbiguousAux_texts : ∀ (l : List (String × String)) (r : Rand),
    (∀ k, (0.15 : Rat) < ((r.stream k % 2 ^ 53 : Nat) : Rat) / 2 ^ 53) →
    (genAmbiguousAux l r).1.map (fun e => e.text) = l.map Prod.fst := by
  intro l
  induction l with
  | nil => intro r _; rfl
  | cons p rest ih =>
    intro r hr
    obtain ⟨t, lab⟩ := p
    have hskip : add_typos t 0.15 r = (t, (randFloat r).2) :=
      add_typos_skip t 0.15 r (by simpa [randFloat, next] using hr r.pos)
    have hr2 : ∀ k, (0.15 : Rat) <
        (((randFloat r).2.stream k % 2 ^ 53 : Nat) : Rat) / 2 ^ 53 := by
      intro k; simpa [randFloat, next] using hr k
    simp [genAmbiguousAux, hskip, ih _ hr2]

/-! ### The seeded shuffle is a permutation -/

/-- Auxiliary: extracting the `m`-th element to the front while writing
`c` at position `m` permutes consing `c`. -/
lemma get_cons_set_perm {α : Type} : ∀ (l : List α) (m : Nat) (h : m < l.length) (c : α),
    List.Perm (l.get ⟨m, h⟩ :: l.set m c) (c :: l) := by
  intro l
  induction l with
  | nil => intro m h c; simp at h
  | cons a t ih =>
    intro m h c
    cases m with
    | zero => simpa using List.Perm.swap c a t
    | succ k =>
      have h' : k < t.length := by simpa using h
      have p1 : List.Perm (t.get ⟨k, h'⟩ :: a :: t.set k c)
          (a :: t.get ⟨k, h'⟩ :: t.set k c) := List.Perm.swap a (t.get ⟨k, h'⟩) (t.set k c)
      have p2 : List.Perm (a :: t.get ⟨k, h'⟩ :: t.set k c) (a :: c :: t) :=
        (ih k h' c).cons a
      have p3 : List.Perm (a :: c :: t) (c :: a :: t) := List.Perm.swap c a t
      simpa using p1.trans (p2.trans p3)

/-- A double `set` realising an in-bounds swap permutes the list. -/
lemma set_set_perm {α : Type} : ∀ (l : List α) (i j : Nat) (hi : i < l.length)
    (hj : j < l.length),
    List.Perm ((l.set i (l.get ⟨j, hj⟩)).set j (l.get ⟨i, hi⟩)) l := by
  intro l
  induction l with
  | nil => intro i j hi _; simp at hi
  | cons a t ih =>
    intro i j hi hj
    cases i with
    | zero =>
      cases j with
      | zero => simp
      | succ m =>
        have h' : m < t.length := by simpa using hj
        simpa using get_cons_set_perm t m h' a
    | succ k =>
      cases j with
      | zero =>
        have h' : k < t.length := by simpa using hi
        simpa using get_cons_set_perm t k h' a
      | succ m =>
        have hi' : k < t.length := by simpa using hi
        have hj' : m < t.length := by simpa using hj
        simpa using (ih k m hi' hj').cons a

/-- One swap step of the shuffle permutes the list. -/
lemma listSwap_perm {α : Type} (l : List α) (i j : Nat) :
    List.Perm (listSwap l i j) l := by
  unfold listSwap
  split
  · next h => exact set_set_perm l i j h.1 h.2
  · exact List.Perm.refl l

/-- The Fisher-Yates loop permutes the list. -/
lemma shuffleGo_perm {α : Type} : ∀ (n : Nat) (l : List α) (r : Rand),
    List.Perm (shuffleGo n l r).1 l := by
  intro n
  induction n with
  | zero => intro l r; exact List.Perm.refl l
  | succ m ih =>
    intro l r
    exact (ih (listSwap l (m + 1) (r.stream r.pos % (m + 2))) ⟨r.stream, r.pos + 1⟩).trans
      (listSwap_perm l (m + 1) (r.stream r.pos % (m + 2)))

/-- `random.shuffle` permutes the list. -/
lemma pyShuffle_perm {α : Type} (l : List α) (r : Rand) :
    List.Perm (pyShuffle l r).1 l := by
  unfold pyShuffle
  cases h : l.length with
  | zero => exact List.Perm.refl l
  | succ n => exact shuffleGo_perm n l r

/-- `random.shuffle` preserves the length. -/
lemma pyShuffle_length {α : Type} (l : List α) (r : Rand) :
    (pyShuffle l r).1.length = l.length :=
  (pyShuffle_perm l r).length_eq

/-! ### Split lemmas -/

/-- For a ratio at most 1 the split index never exceeds the length. -/
lemma splitIndex_le (l : List Example) (ratio : Rat) (h1 : ratio ≤ 1) :
    splitIndex l ratio ≤ l.length := by
  unfold splitIndex
  have hq : ((l.length : Rat) * ratio) ≤ (l.length : Rat) := by
    calc (l.length : Rat) * ratio ≤ (l.length : Rat) * 1 :=
          mul_le_mul_of_nonneg_left h1 (by positivity)
      _ = (l.length : Rat) := mul_one _
  have hfl : ((Rat.floor ((l.length : Rat) * ratio) : Int) : Rat) ≤ (l.length : Rat) :=
    le_trans (Rat.le_floor.mp (le_refl _)) hq
  have hz : Rat.floor ((l.length : Rat) * ratio) ≤ (l.length : Int) := by
    exact_mod_cast hfl
  exact Int.toNat_le.mpr hz

/-! ### Assembly lemmas -/

/-- Turn a generator spec (length plus uniform label) into the label
image. -/
lemma map_label_eq_replicate (l : List Example) (L : String) (n : Nat)
    (hlen : l.length = n) (hmem : ∀ e ∈ l, e.label = L) :
    l.map (fun e => e.label) = List.replicate n L := by
  rw [List.eq_replicate_iff]
  constructor
  · simpa using hlen
  · intro b hb
    obtain ⟨e, he, hbe⟩ := List.mem_map.mp hb
    rw [← hbe]; exact hmem e he

/-- The assembler's concatenation step: it always succeeds, concatenates
the seven generator outputs in the fixed source order with each output
kept intact, and the label image is the corresponding block sequence. -/
lemma allExamples_spec (nB nS nR nC nN nQ nA : Nat) (r : Rand) :
    ∃ (b s rm cal nt q : List Example) (r1 r2 r3 r4 r5 r6 : Rand),
      generate_budget_examples nB r = some (b, r1) ∧
      generate_shopping_examples nS r1 = some (s, r2) ∧
      generate_reminder_examples nR r2 = some (rm, r3) ∧
      generate_calendar_examples nC r3 = some (cal, r4) ∧
      generate_note_examples nN r4 = some (nt, r5) ∧
      generate_quote_examples nQ r5 = some (q, r6) ∧
      allExamples nB nS nR nC nN nQ nA r =
        some (b ++ s ++ rm ++ cal ++ nt ++ q ++ (generate_ambiguous_examples nA r6).1,
          (generate_ambiguous_examples nA r6).2) ∧
      b.map (fun e => e.label) = List.replicate (pyIntTimes07 nB + pyIntTimes03 nB) "BUDGET" ∧
      s.map (fun e => e.label) = List.replicate nS "SHOPPING" ∧
      rm.map (fun e => e.label) = List.replicate nR "REMINDER" ∧
      cal.map (fun e => e.label) = List.replicate nC "CALENDAR" ∧
      nt.map (fun e => e.label) = List.replicate nN "NOTE" ∧
      q.map (fun e => e.label) = List.replicate nQ "QUOTE" := by
  obtain ⟨b, r1, hb, hbl, hbm⟩ := generate_budget_spec nB r
  obtain ⟨s, r2, hs, hsl, hsm⟩ := generate_shopping_spec nS r1
  obtain ⟨rm, r3, hrm, hrml, hrmm⟩ := generate_reminder_spec nR r2
  obtain ⟨cal, r4, hcal, hcall, hcalm⟩ := generate_calendar_spec nC r3
  obtain ⟨nt, r5, hnt, hntl, hntm⟩ := generate_note_spec nN r4
  obtain ⟨q, r6, hq, hql, hqm⟩ := generate_quote_spec nQ r5
  refine ⟨b, s, rm, cal, nt, q, r1, r2, r3, r4, r5, r6,
    hb, hs, hrm, hcal, hnt, hq, ?_,
    map_label_eq_replicate b _ _ hbl hbm,
    map_label_eq_replicate s _ _ hsl hsm,
    map_label_eq_replicate rm _ _ hrml hrmm,
    map_label_eq_replicate cal _ _ hcall hcalm,
    map_label_eq_replicate nt _ _ hntl hntm,
    map_label_eq_replicate q _ _ hql hqm⟩
  simp [allExamples, hb, hs, hrm, hcal, hnt, hq]

/-- The assembler shuffles the concatenation and splits it. -/
lemma assemble_eq (nB nS nR nC nN nQ nA : Nat) (ratio : Rat) (r : Rand)
    (all : List Example) (rst : Rand)
    (h : allExamples nB nS nR nC nN nQ nA r = some (all, rst)) :
    assemble nB nS nR nC nN nQ nA ratio r =
      some (trainTestSplit (pyShuffle all rst).1 ratio) := by
  simp [assemble, h]

/-- The ambiguous generator preserves the truncated list's labels. -/
lemma generate_ambiguous_labels (count : Nat) (r : Rand) :
    (generate_ambiguous_examples count r).1.map (fun e => e.label) =
      (ambiguous_list.take count).map Prod.snd :=
  genAmbiguousAux_labels _ _

/-- The ambiguous generator returns `min count 19` examples. -/
lemma generate_ambiguous_length (count : Nat) (r : Rand) :
    (generate_ambiguous_examples count r).1.length = min count ambiguous_list.length := by
  rw [generate_ambiguous_examples, genAmbiguousAux_length, List.length_take]

/-- Full characterisation of one assembled run: the corpus produced is the
split of the shuffled concatenation, whose label image and length are
determined by the configuration alone. -/
lemma assemble_run (nB nS nR nC nN nQ nA : Nat) (ratio : Rat) (r : Rand) :
    ∃ (all : List Example) (rst : Rand),
      allExamples nB nS nR nC nN nQ nA r = some (all, rst) ∧
      assemble nB nS nR nC nN nQ nA ratio r =
        some (trainTestSplit (pyShuffle all rst).1 ratio) ∧
      all.map (fun e => e.label) =
        List.replicate (pyIntTimes07 nB + pyIntTimes03 nB) "BUDGET" ++
        (List.replicate nS "SHOPPING" ++ (List.replicate nR "REMINDER" ++
         (List.replicate nC "CALENDAR" ++ (List.replicate nN "NOTE" ++
          (List.replicate nQ "QUOTE" ++ (ambiguous_list.take nA).map Prod.snd))))) ∧
      all.length = pyIntTimes07 nB + pyIntTimes03 nB + nS + nR + nC + nN + nQ +
        min nA ambiguous_list.length := by
  obtain ⟨b, s, rm, cal, nt, q, r1, r2, r3, r4, r5, r6, hb, hs, hrm, hcal, hnt,
    hq, hall, hLb, hLs, hLrm, hLcal, hLnt, hLq⟩ := allExamples_spec nB nS nR nC nN nQ nA r
  have hlabels : (b ++ s ++ rm ++ cal ++ nt ++ q ++
      (generate_ambiguous_examples nA r6).1).map (fun e => e.label) =
      List.replicate (pyIntTimes07 nB + pyIntTimes03 nB) "BUDGET" ++
      (List.replicate nS "SHOPPING" ++ (List.replicate nR "REMINDER" ++
       (List.replicate nC "CALENDAR" ++ (List.replicate nN "NOTE" ++
        (List.replicate nQ "QUOTE" ++ (ambiguous_list.take nA).map Prod.snd))))) := by
    simp [hLb, hLs, hLrm, hLcal, hLnt, hLq, generate_ambiguous_labels]
  refine ⟨_, _, hall, assemble_eq nB nS nR nC nN nQ nA ratio r _ _ hall, hlabels, ?_⟩
  have hlb := congrArg List.length hLb
  have hls := congrArg List.length hLs
  have hlrm := congrArg List.length hLrm
  have hlcal := congrArg List.length hLcal
  have hlnt := congrArg List.length hLnt
  have hlq := congrArg List.length hLq
  simp only [List.length_map, List.length_replicate] at hlb hls hlrm hlcal hlnt hlq
  have hla := generate_ambiguous_length nA r6
  simp only [List.length_append, hlb, hls, hlrm, hlcal, hlnt, hlq, hla]

/-- Characterisation of `Rat.floor` by its bracketing inequalities. -/
lemma ratFloor_eq (q : Rat) (z : Int) (h1 : (z : Rat) ≤ q)
    (h2 : q < ((z + 1 : Int) : Rat)) : Rat.floor q = z := by
  have ha : z ≤ Rat.floor q := Rat.le_floor.mpr h1
  have hb : ¬ ((z + 1 : Int) ≤ Rat.floor q) := by
    intro hc
    exact absurd (Rat.le_floor.mp hc) (not_le.mpr h2)
  omega

/-- The script's configured run: the corpus is the split of the shuffled
concatenation, the pre-shuffle list has 2219 examples (the 19-entry
ambiguous list caps the requested 100), and every label is valid. -/
lemma main_corpus_spec (g : Nat → Nat) :
    ∃ (all : List Example) (rst : Rand),
      allExamples 400 400 300 300 500 300 100 ⟨g, 0⟩ = some (all, rst) ∧
      main_corpus g = some (trainTestSplit (pyShuffle all rst).1 0.9) ∧
      all.length = 2219 ∧
      ∀ e ∈ all, e.label ∈ validLabels := by
  obtain ⟨all, rst, hall, hasm, hlabels, hlen⟩ :=
    assemble_run 400 400 300 300 500 300 100 0.9 ⟨g, 0⟩
  have h19 : ambiguous_list.length = 19 := rfl
  refine ⟨all, rst, hall, hasm, by rw [hlen, h19]; decide, ?_⟩
  intro e he
  have hm : e.label ∈ all.map (fun e => e.label) := List.mem_map_of_mem _ he
  rw [hlabels] at hm
  have hamb : ∀ x ∈ (ambiguous_list.take 100).map Prod.snd, x ∈ validLabels := by decide
  simp only [List.mem_append] at hm
  rcases hm with h | h | h | h | h | h | h
  all_goals first
    | exact hamb _ h
    | (rw [List.eq_of_mem_replicate h]; decide)

/-- Train and test sizes of the configured run: 1997 and 222. -/
lemma main_corpus_lengths (g : Nat → Nat) :
    Option.map (fun c => (c.train.length, c.test.length)) (main_corpus g) =
      some (1997, 222) := by
  obtain ⟨all, rst, _, hmain, hlen, _⟩ := main_corpus_spec g
  rw [hmain]
  have hsl : (pyShuffle all rst).1.length = 2219 := by rw [pyShuffle_length, hlen]
  have hfl : Rat.floor (((2219 : Nat) : Rat) * 0.9) = 1997 :=
    ratFloor_eq _ 1997 (by norm_num) (by norm_num)
  have hk : splitIndex (pyShuffle all rst).1 (0.9 : Rat) = 1997 := by
    simp only [splitIndex, hsl, hfl]
    rfl
  simp [trainTestSplit, List.length_take, List.length_drop, hk, hsl]

/-- Every example of the configured corpus carries a valid label. -/
lemma main_corpus_labels (g : Nat → Nat) :
    ∃ c, main_corpus g = some c ∧ (∀ e ∈ c.train, e.label ∈ validLabels) ∧
      ∀ e ∈ c.test, e.label ∈ validLabels := by
  obtain ⟨all, rst, _, hmain, _, hvalid⟩ := main_corpus_spec g
  refine ⟨_, hmain, ?_, ?_⟩ <;> intro e he <;> simp only [trainTestSplit] at he
  · exact hvalid e ((pyShuffle_perm all rst).mem_iff.mp (List.mem_of_mem_take he))
  · exact hvalid e ((pyShuffle_perm all rst).mem_iff.mp (List.mem_of_mem_drop he))

/-- Replicate counting, phrased with propositional equality on labels. -/
lemma count_replicate_eq (lab L : String) (n : Nat) :
    List.count lab (List.replicate n L) = if lab = L then n else 0 := by
  rw [List.count_replicate]
  by_cases h : lab = L
  · subst h; simp
  · simp [h, Ne.symm h]

/-- Label bookkeeping for an arbitrary configuration: the examples
carrying each label in train plus test equal exactly what the
configuration generated. -/
lemma assemble_label_count (nB nS nR nC nN nQ nA : Nat) (ratio : Rat)
    (r : Rand) (lab : String) :
    ∃ c, assemble nB nS nR nC nN nQ nA ratio r = some c ∧
      labelCount c.train lab + labelCount c.test lab =
        expectedLabelCount nB nS nR nC nN nQ nA lab := by
  obtain ⟨all, rst, _, hasm, hlabels, _⟩ := assemble_run nB nS nR nC nN nQ nA ratio r
  refine ⟨_, hasm, ?_⟩
  have hsplit : (trainTestSplit (pyShuffle all rst).1 ratio).train ++
      (trainTestSplit (pyShuffle all rst).1 ratio).test = (pyShuffle all rst).1 := by
    simp [trainTestSplit]
  have hcnt : labelCount (trainTestSplit (pyShuffle all rst).1 ratio).train lab +
      labelCount (trainTestSplit (pyShuffle all rst).1 ratio).test lab =
      List.count lab ((pyShuffle all rst).1.map fun e => e.label) := by
    rw [labelCount, labelCount, ← List.count_append, ← List.map_append, hsplit]
  rw [hcnt]
  have hperm : List.Perm ((pyShuffle all rst).1.map fun e => e.label)
      (all.map fun e => e.label) := (pyShuffle_perm all rst).map _
  rw [hperm.count_eq, hlabels]
  simp only [List.count_append, count_replicate_eq]
  rw [expectedLabelCount]

/-- The mutate branch of the injector, taken when the draw does not
exceed the rate: one rule is drawn and all its occurrences replaced. -/
lemma add_typos_mutate (t : String) (rate : Rat) (r : Rand)
    (h : ¬ (rate < (randFloat r).1)) :
    add_typos t rate r =
      (pyReplace t (choice typo_patterns (randFloat r).2).1.1
        (choice typo_patterns (randFloat r).2).1.2,
       (choice typo_patterns (randFloat r).2).2) := by
  rcases hrf : randFloat r with ⟨d, r1⟩
  rw [hrf] at h
  simp only [add_typos, hrf, if_neg h]

/-- A template referencing the undeclared slot `foo` makes the
per-example step fail (the model of `str.format`'s `KeyError`), for every
stream state. -/
lemma genShoppingOneWith_bad (r : Rand) :
    genShoppingOneWith ["need {foo}"] r = none := by
  have hmod : r.stream r.pos % 1 = 0 := Nat.mod_one _
  simp [genShoppingOneWith, choice, next, hmod, pyFormat, formatAux, alookup]

/-- Concrete run of the injector with rate 0 and draw 0: the text IS
mutated ("the" becomes "teh"), because the source tests `draw > rate`
strictly. -/
lemma add_typos_the_zero :
    (add_typos "the" 0 ⟨fun _ => 0, 0⟩).1 = "teh" := by
  have h1 : ¬ ((0 : Rat) < (randFloat ⟨fun _ => 0, 0⟩).1) := by
    norm_num [randFloat, next]
  have h2 := add_typos_mutate "the" 0 ⟨fun _ => 0, 0⟩ h1
  have h3 : choice typo_patterns ((randFloat ⟨fun _ => 0, 0⟩).2) =
      (("the", "teh"), ⟨fun _ => 0, 2⟩) := rfl
  rw [h3] at h2
  rw [h2]
  decide

/-- Concrete run of the ambiguous generator on a stream whose first draw
triggers the typo injector with the rule ("for", "fro"): the returned
text differs from the static list entry. -/
lemma ambiguous_one_mutated :
    (generate_ambiguous_examples 1 ⟨fun n => 2 * n, 0⟩).1 =
      [⟨"buy milk befroe 5pm", "SHOPPING"⟩] := by
  have h1 : ¬ ((0.15 : Rat) < (randFloat ⟨fun n => 2 * n, 0⟩).1) := by
    norm_num [randFloat, next]
  have h2 := add_typos_mutate "buy milk before 5pm" 0.15 ⟨fun n => 2 * n, 0⟩ h1
  have h3 : choice typo_patterns ((randFloat ⟨fun n => 2 * n, 0⟩).2) =
      (("for", "fro"), ⟨fun n => 2 * n, 2⟩) := rfl
  rw [h3] at h2
  have h4 : pyReplace "buy milk before 5pm" "for" "fro" = "buy milk befroe 5pm" := by
    decide
  rw [h4] at h2
  simp [generate_ambiguous_examples, ambiguous_list, genAmbiguousAux, h2]

/-! ## The claims -/

/-- C1: Determinism — for every fixed configuration (per-category counts,
split ratio) and fixed seed (modelled as the stream the seeded PRNG
emits), two runs of the full pipeline produce identical Corpus output:
equal corpora, hence the same text at every position of train and of
test. -/
theorem claim_C1_determinism (nB nS nR nC nN nQ nA : Nat) (ratio : Rat)
    (g1 g2 : Nat → Nat) (hseed : ∀ n, g1 n = g2 n) :
    assemble nB nS nR nC nN nQ nA ratio ⟨g1, 0⟩ =
      assemble nB nS nR nC nN nQ nA ratio ⟨g2, 0⟩ ∧
    ∀ i : Nat, Option.map (fun c => (c.train[i]?, c.test[i]?))
        (assemble nB nS nR nC nN nQ nA ratio ⟨g1, 0⟩) =
      Option.map (fun c => (c.train[i]?, c.test[i]?))
        (assemble nB nS nR nC nN nQ nA ratio ⟨g2, 0⟩) := by
  have hg : g1 = g2 := funext hseed
  subst hg
  exact ⟨rfl, fun _ => rfl⟩

/-- Witness for C1 at the script's configuration and a concrete seed
stream. -/
theorem claim_C1_witness :
    (∀ n : Nat, (fun _ : Nat => 42) n = (fun _ : Nat => 42) n) ∧
    assemble 400 400 300 300 500 300 100 0.9 ⟨fun _ : Nat => 42, 0⟩ =
      assemble 400 400 300 300 500 300 100 0.9 ⟨fun _ : Nat => 42, 0⟩ :=
  ⟨fun _ => rfl,
   (claim_C1_determinism 400 400 300 300 500 300 100 0.9 (fun _ => 42)
     (fun _ => 42) (fun _ => rfl)).1⟩

/-- C2 counterexample: at the configured counts the train split has 1997
examples, not the claimed 2070 (the ambiguous generator truncates the
requested 100 to its 19 curated entries, so the total is 2219, not
2300). -/
theorem claim_C2_counterexample :
    Option.map (fun c => c.train.length) (main_corpus (fun _ => 0)) = some 1997 ∧
    (some 1997 : Option Nat) ≠ some 2070 := by
  constructor
  · have h := main_corpus_lengths (fun _ => 0)
    rcases hm : main_corpus (fun _ => 0) with _ | c
    · rw [hm] at h; simp at h
    · rw [hm] at h
      have h1 : c.train.length = 1997 := by
        have h2 := congrArg (fun o => Option.map Prod.fst o) h
        simpa using h2
      simp [h1]
  · decide

/-- C2 amended: with the configured counts (400/400/300/300/500/300 and
100 ambiguous truncated to 19), every seed stream yields
`|train| = 1997`, `|test| = 222`, and every example's label is one of the
six valid category strings. -/
theorem claim_C2_amended (g : Nat → Nat) :
    Option.map (fun c => (c.train.length, c.test.length)) (main_corpus g) =
      some (1997, 222) ∧
    ∃ c, main_corpus g = some c ∧ (∀ e ∈ c.train, e.label ∈ validLabels) ∧
      ∀ e ∈ c.test, e.label ∈ validLabels :=
  ⟨main_corpus_lengths g, main_corpus_labels g⟩

/-- C3 counterexample: a generator whose table holds the template
"need {foo}" (slot `foo` undeclared) does NOT fail at construction: asked
for zero examples it succeeds, and the failure only occurs while
producing the first individual example. -/
theorem claim_C3_counterexample :
    genListAux (genShoppingOneWith ["need {foo}"]) 0 ⟨fun _ => 0, 0⟩ =
      some ([], ⟨fun _ => 0, 0⟩) ∧
    genListAux (genShoppingOneWith ["need {foo}"]) 1 ⟨fun _ => 0, 0⟩ = none :=
  ⟨rfl, rfl⟩

/-- C3 amended: the script has no construction-time validation and no
ConfigurationError; a template referencing an undeclared slot raises at
runtime from `str.format` while producing an individual example — every
per-example step fails, generation of `count ≥ 1` examples fails
mid-generation, and generation of zero examples succeeds. -/
theorem claim_C3_amended (r : Rand) (count : Nat) :
    genShoppingOneWith ["need {foo}"] r = none ∧
    genListAux (genShoppingOneWith ["need {foo}"]) (count + 1) r = none ∧
    genListAux (genShoppingOneWith ["need {foo}"]) 0 r = some ([], r) := by
  refine ⟨genShoppingOneWith_bad r, ?_, rfl⟩
  simp [genListAux, genShoppingOneWith_bad r]

/-- C4 counterexample: `generate_budget_examples(5)` returns 4 examples,
not 5 — `int(5*0.7) + int(5*0.3) = 3 + 1` (both float products round to
the exact halves 3.5 and 1.5 before truncation). -/
theorem claim_C4_counterexample :
    Option.map (fun p => p.1.length) (generate_budget_examples 5 ⟨fun _ => 0, 0⟩) =
      some 4 ∧
    (4 : Nat) ≠ 5 := by
  obtain ⟨l, r', h, hlen, _⟩ := generate_budget_spec 5 ⟨fun _ => 0, 0⟩
  refine ⟨?_, by decide⟩
  rw [h]
  have h4 : l.length = 4 := by rw [hlen]; decide
  simp [h4]

/-- C4 amended: for every configuration and every label, the number of
examples carrying that label in train plus test equals exactly what the
configuration generated: the requested count for SHOPPING, REMINDER,
CALENDAR, NOTE and QUOTE, `int(count*0.7) + int(count*0.3)` under float
truncation for BUDGET, plus that label's occurrences among the truncated
ambiguous entries.  The BUDGET tally equals the requested count at the
configured 400 but falls short at other counts — even at some multiples
of ten, e.g. 89 of 90, since `int(90*0.7) = 62` in binary64
arithmetic. -/
theorem claim_C4_amended (nB nS nR nC nN nQ nA : Nat) (ratio : Rat)
    (g : Nat → Nat) (lab : String) :
    (∃ c, assemble nB nS nR nC nN nQ nA ratio ⟨g, 0⟩ = some c ∧
      labelCount c.train lab + labelCount c.test lab =
        expectedLabelCount nB nS nR nC nN nQ nA lab) ∧
    pyIntTimes07 400 + pyIntTimes03 400 = 400 ∧
    pyIntTimes07 90 + pyIntTimes03 90 = 89 :=
  ⟨assemble_label_count nB nS nR nC nN nQ nA ratio ⟨g, 0⟩ lab, by decide, by decide⟩

/-- C5: Split correctness — for every example sequence of length ≥ 1 and
ratio in [0,1], the split index is `⌊total·ratio⌋`, train is exactly the
positions `[0, k)`, test exactly `[k, total)`, with
`|train| = ⌊total·ratio⌋` and `|test| = total − |train|`, and
`train ++ test` recovers the whole sequence. -/
theorem claim_C5_split (l : List Example) (ratio : Rat) (_h0 : 0 ≤ ratio)
    (h1 : ratio ≤ 1) (_hlen : 1 ≤ l.length) :
    splitIndex l ratio = (Rat.floor ((l.length : Rat) * ratio)).toNat ∧
    (trainTestSplit l ratio).train.length = splitIndex l ratio ∧
    (trainTestSplit l ratio).test.length = l.length - splitIndex l ratio ∧
    (trainTestSplit l ratio).train ++ (trainTestSplit l ratio).test = l ∧
    (∀ i, i < splitIndex l ratio → (trainTestSplit l ratio).train[i]? = l[i]?) ∧
    (∀ i, (trainTestSplit l ratio).test[i]? = l[splitIndex l ratio + i]?) := by
  refine ⟨rfl, ?_, ?_, ?_, ?_, ?_⟩
  · simp [trainTestSplit, List.length_take, Nat.min_eq_left (splitIndex_le l ratio h1)]
  · simp [trainTestSplit, List.length_drop]
  · simp [trainTestSplit]
  · intro i hi
    simp [trainTestSplit, List.getElem?_take_of_lt hi]
  · intro i
    simp [trainTestSplit, List.getElem?_drop]

/-- Witness for C5 on a one-element list with ratio 0.9. -/
theorem claim_C5_witness :
    (0 : Rat) ≤ 0.9 ∧ (0.9 : Rat) ≤ 1 ∧
    1 ≤ ([⟨"milk", "SHOPPING"⟩] : List Example).length ∧
    (trainTestSplit [⟨"milk", "SHOPPING"⟩] 0.9).train ++
      (trainTestSplit [⟨"milk", "SHOPPING"⟩] 0.9).test = [⟨"milk", "SHOPPING"⟩] :=
  ⟨by norm_num, by norm_num, by decide,
   (claim_C5_split [⟨"milk", "SHOPPING"⟩] 0.9 (by norm_num) (by norm_num)
     (by decide)).2.2.2.1⟩

/-- C6 counterexample: with rate 0 the uniform draw 0 satisfies
draw ≥ rate, yet the injector mutates the text: `add_typos("the", 0)`
returns "teh" when the draw is exactly 0 (the source tests `draw > rate`
strictly, not `draw ≥ rate`). -/
theorem claim_C6_counterexample :
    (randFloat ⟨fun _ => 0, 0⟩).1 = 0 ∧
    (add_typos "the" 0 ⟨fun _ => 0, 0⟩).1 = "teh" ∧
    ("teh" : String) ≠ "the" :=
  ⟨by norm_num [randFloat, next], add_typos_the_zero, by decide⟩

/-- C6 amended: the injector returns the text unchanged whenever the draw
STRICTLY exceeds the rate (the no-mutation branch is `draw > rate`, not
`draw ≥ rate`); with rate 0 the text is unchanged for every nonzero
draw. -/
theorem claim_C6_amended (t : String) (rate : Rat) (r : Rand) :
    (rate < (randFloat r).1 → (add_typos t rate r).1 = t) ∧
    (r.stream r.pos % 2 ^ 53 ≠ 0 → (add_typos t 0 r).1 = t) := by
  constructor
  · intro h
    rw [add_typos_skip t rate r h]
  · intro h
    have hv : 0 < r.stream r.pos % 2 ^ 53 := Nat.pos_of_ne_zero h
    have hpos : (0 : Rat) < (randFloat r).1 := by
      simp only [randFloat, next]
      apply div_pos
      · exact_mod_cast hv
      · norm_num
    rw [add_typos_skip t 0 r hpos]

/-- Witness for C6's amended clauses at concrete streams. -/
theorem claim_C6_witness :
    ((0.5 : Rat) < (randFloat ⟨fun _ => 2 ^ 52 + 1, 0⟩).1) ∧
    (add_typos "hello" 0.5 ⟨fun _ => 2 ^ 52 + 1, 0⟩).1 = "hello" ∧
    ((⟨fun _ => 7, 0⟩ : Rand).stream 0 % 2 ^ 53 ≠ 0) ∧
    (add_typos "hello" 0 ⟨fun _ => 7, 0⟩).1 = "hello" := by
  have h1 : (0.5 : Rat) < (randFloat ⟨fun _ => 2 ^ 52 + 1, 0⟩).1 := by
    norm_num [randFloat, next]
  have h2 : (⟨fun _ => 7, 0⟩ : Rand).stream 0 % 2 ^ 53 ≠ 0 := by decide
  exact ⟨h1, (claim_C6_amended "hello" 0.5 ⟨fun _ => 2 ^ 52 + 1, 0⟩).1 h1, h2,
    (claim_C6_amended "hello" 0 ⟨fun _ => 7, 0⟩).2 h2⟩

/-- C7: whenever the draw falls below the rate the injector mutates using
exactly one rule drawn from the fixed table, replacing every occurrence
of its match substring; if the match is absent the call returns the text
unchanged — a silent no-op with no retry. -/
theorem claim_C7_mutation (t : String) (rate : Rat) (r : Rand)
    (h : (randFloat r).1 < rate) :
    ∃ p, p ∈ typo_patterns ∧
      (add_typos t rate r).1 = pyReplace t p.1 p.2 ∧
      (strContains t p.1 = false → (add_typos t rate r).1 = t) := by
  have hnot : ¬ (rate < (randFloat r).1) := not_lt.mpr (le_of_lt h)
  have hmut := add_typos_mutate t rate r hnot
  refine ⟨(choice typo_patterns (randFloat r).2).1, ?_, ?_, ?_⟩
  · exact choice_mem (by decide) (randFloat r).2
  · rw [hmut]
  · intro hnocc
    rw [hmut]
    exact pyReplace_no_occ t _ _ hnocc

/-- Witness for C7 with rate 1 and draw 0. -/
theorem claim_C7_witness :
    (randFloat ⟨fun _ => 0, 0⟩).1 < 1 ∧
    ∃ p, p ∈ typo_patterns ∧
      (add_typos "good morning" 1 ⟨fun _ => 0, 0⟩).1 =
        pyReplace "good morning" p.1 p.2 ∧
      (strContains "good morning" p.1 = false →
        (add_typos "good morning" 1 ⟨fun _ => 0, 0⟩).1 = "good morning") := by
  have h : (randFloat ⟨fun _ => 0, 0⟩).1 < 1 := by norm_num [randFloat, next]
  exact ⟨h, claim_C7_mutation "good morning" 1 ⟨fun _ => 0, 0⟩ h⟩

/-- C8 counterexample: requesting one ambiguous example on a stream whose
first draw triggers the typo injector returns a text that is NOT the
first entry of the static list — the generator does not return the static
entries verbatim, it pipes each through `add_typos(text, 0.15)`. -/
theorem claim_C8_counterexample :
    (generate_ambiguous_examples 1 ⟨fun n => 2 * n, 0⟩).1 =
      [⟨"buy milk befroe 5pm", "SHOPPING"⟩] ∧
    ([⟨"buy milk befroe 5pm", "SHOPPING"⟩] : List Example) ≠
      [⟨"buy milk before 5pm", "SHOPPING"⟩] :=
  ⟨ambiguous_one_mutated, by decide⟩

/-- C8 amended: for every requested count the ambiguous generator returns
exactly `min(count, 19)` examples — the first `min(count, 19)` entries of
its static list in order, labels verbatim and each text passed through
the typo injector at rate 0.15 (texts verbatim whenever no draw triggers
the injector) — never repeating, padding, or erroring. -/
theorem claim_C8_amended (count : Nat) (r : Rand) :
    (generate_ambiguous_examples count r).1.length =
      min count ambiguous_list.length ∧
    (generate_ambiguous_examples count r).1.map (fun e => e.label) =
      (ambiguous_list.take count).map Prod.snd ∧
    ((∀ k, (0.15 : Rat) < ((r.stream k % 2 ^ 53 : Nat) : Rat) / 2 ^ 53) →
      (generate_ambiguous_examples count r).1.map (fun e => e.text) =
        (ambiguous_list.take count).map Prod.fst) :=
  ⟨generate_ambiguous_length count r, generate_ambiguous_labels count r,
   fun h => genAmbiguousAux_texts _ r h⟩

/-- Witness for C8's amended no-mutation clause on a stream of maximal
draws, requesting more than the 19 curated entries. -/
theorem claim_C8_witness :
    (∀ k, (0.15 : Rat) <
      (((⟨fun _ => 2 ^ 53 - 1, 0⟩ : Rand).stream k % 2 ^ 53 : Nat) : Rat) / 2 ^ 53) ∧
    (generate_ambiguous_examples 25 ⟨fun _ => 2 ^ 53 - 1, 0⟩).1.map (fun e => e.text) =
      (ambiguous_list.take 25).map Prod.fst := by
  have hk : ∀ k, (0.15 : Rat) <
      (((⟨fun _ => 2 ^ 53 - 1, 0⟩ : Rand).stream k % 2 ^ 53 : Nat) : Rat) / 2 ^ 53 := by
    intro k
    norm_num
  exact ⟨hk, (claim_C8_amended 25 ⟨fun _ => 2 ^ 53 - 1, 0⟩).2.2 hk⟩

/-- C9 counterexample: on the template "buy {item} and {item}" with the
shopping pool and the stream 0,1,2,..., the source semantics (one draw
per slot name, then `str.format`) produces "buy milk and milk" — both
occurrences receive the SAME word — whereas the claim's per-occurrence
independent-draw semantics produces "buy milk and eggs" on the very same
stream. -/
theorem claim_C9_counterexample :
    expandPerName "buy {item} and {item}" [("item", shopping_items)]
      ⟨fun n => n, 0⟩ = some "buy milk and milk" ∧
    expandPerOccurrence "buy {item} and {item}" [("item", shopping_items)]
      ⟨fun n => n, 0⟩ = some "buy milk and eggs" ∧
    (some "buy milk and milk" : Option String) ≠ some "buy milk and eggs" :=
  ⟨by decide, by decide, by decide⟩

/-- C9 amended: each slot NAME is sampled once per expansion and every
occurrence of that name receives the same value — for every pool and
every stream, both occurrences of `item` expand to the single drawn
word. -/
theorem claim_C9_amended (pool : List String) (r : Rand) :
    expandPerName "buy {item} and {item}" [("item", pool)] r =
      some (String.mk ("buy ".data ++ ((choice pool r).1.data ++
        (" and ".data ++ ((choice pool r).1.data ++ ([] : List Char)))))) := rfl

/-- C10: before the seeded shuffle the assembler always concatenates the
category outputs in exactly the order BUDGET, SHOPPING, REMINDER,
CALENDAR, NOTE, QUOTE, then the ambiguous set, with each category's
examples kept whole in generation order; the label image of the
concatenation is the fixed block sequence, the same on every run. -/
theorem claim_C10_order (nB nS nR nC nN nQ nA : Nat) (r : Rand) :
    ∃ (b s rm cal nt q : List Example) (r1 r2 r3 r4 r5 r6 : Rand),
      generate_budget_examples nB r = some (b, r1) ∧
      generate_shopping_examples nS r1 = some (s, r2) ∧
      generate_reminder_examples nR r2 = some (rm, r3) ∧
      generate_calendar_examples nC r3 = some (cal, r4) ∧
      generate_note_examples nN r4 = some (nt, r5) ∧
      generate_quote_examples nQ r5 = some (q, r6) ∧
      allExamples nB nS nR nC nN nQ nA r =
        some (b ++ s ++ rm ++ cal ++ nt ++ q ++
          (generate_ambiguous_examples nA r6).1,
          (generate_ambiguous_examples nA r6).2) ∧
      b.map (fun e => e.label) =
        List.replicate (pyIntTimes07 nB + pyIntTimes03 nB) "BUDGET" ∧
      s.map (fun e => e.label) = List.replicate nS "SHOPPING" ∧
      rm.map (fun e => e.label) = List.replicate nR "REMINDER" ∧
      cal.map (fun e => e.label) = List.replicate nC "CALENDAR" ∧
      nt.map (fun e => e.label) = List.replicate nN "NOTE" ∧
      q.map (fun e => e.label) = List.replicate nQ "QUOTE" :=
  allExamples_spec nB nS nR nC nN nQ nA r

end TCGen
